import Mathlib

/-!
Verification of the coverage-convergence assistant against its specification.

Shallow embedding of the Python sources:
  - `src/validacao/git.py`      (diff parsing into a ChangeSet)
  - `src/validacao/cobertura.py` (coverage filtering and summarising)
  - `src/validacao/dotnet.py`   (SDK sufficiency check)
  - `src/agent/nodes.py`, `src/agent/graph.py` (the convergence loop)

Text is modelled as `List Char` (Python `str`), Python `int` as `ℤ` or `ℕ`
where values are provably non-negative, and Python `float` as `ℚ` (the
arithmetic performed by the embedded code — multiplication by 100,
subtraction, comparison — is exact on the rational values at issue).
Logging calls (`imprimir_*`, `print`) have no effect on any returned value
and are elided. Fallible operations return `Option`.
-/

/-! ### Basic text helpers (Python string operations) -/

/-- Python whitespace characters recognised by `str.strip()`. -/
def pySpace (c : Char) : Bool :=
  c == ' ' || c == '\t' || c == '\n' || c == '\r' ||
    c == Char.ofNat 11 || c == Char.ofNat 12

/-- Python `str.strip()`: drop leading and trailing whitespace. -/
def pyStrip (l : List Char) : List Char :=
  ((l.dropWhile pySpace).reverse.dropWhile pySpace).reverse

/-- Python `str.split(chr(10))`: split a text into lines; the empty text
yields one empty line, matching Python. -/
def splitLinhas : List Char → List (List Char)
  | [] => [[]]
  | c :: rest =>
    if c = '\n' then [] :: splitLinhas rest
    else
      match splitLinhas rest with
      | [] => [[c]]
      | h :: t => (c :: h) :: t

/-- ASCII decimal digits, the `\d` class of the regexes in the source
(inputs there are ASCII command output). -/
def pyDigit (c : Char) : Bool :=
  '0' ≤ c && c ≤ '9'

/-- Leading run of decimal digits. -/
def takeDigits (l : List Char) : List Char :=
  l.takeWhile pyDigit

/-- Numeric value of a digit string (Python `int` on a matched `\d+`). -/
def natOfDigits (l : List Char) : ℕ :=
  l.foldl (fun n c => 10 * n + (c.toNat - '0'.toNat)) 0

/-! ### ChangeSet extractor (`src/validacao/git.py`, `obter_arquivos_e_linhas_modificadas`)

The ChangeSet is the Python `Dict[str, Set[int]]` built by the extractor:
an association list of (file path, set of line numbers) with unique keys,
keys created on the first line added (as with `defaultdict(set)` accessed
inside the per-line loop, so a key appears exactly when at least one line
was added for it).
-/

/-- A ChangeSet: a file-to-line-set mapping with unique keys. -/
abbrev ChangeSet : Type := List (List Char × Finset ℕ)

/-- Lookup in a ChangeSet; a missing file has the empty set. -/
def csGet : ChangeSet → List Char → Finset ℕ
  | [], _ => ∅
  | (g, t) :: rest, f => if g = f then t else csGet rest f

/-- Add a set of lines under a file, creating the key at the end if absent
(Python dict insertion order). -/
def csUnion : ChangeSet → List Char → Finset ℕ → ChangeSet
  | [], f, s => [(f, s)]
  | (g, t) :: rest, f, s =>
    if g = f then (g, t ∪ s) :: rest else (g, t) :: csUnion rest f s

/-- Effect of the hunk body loop `for num_linha in range(ini, ini+q): ... .add`:
nothing is touched when the range is empty, otherwise the interval
`[ini, ini+q)` is added under the file. -/
def csAddRange (m : ChangeSet) (f : List Char) (ini q : ℕ) : ChangeSet :=
  if q = 0 then m else csUnion m f (Finset.Ico ini (ini + q))

/-- `re.search(regex-plus-start-count, linha)` of the extractor: the first
occurrence of a plus sign followed by digits, with an optional comma and a
second digit group; returns (start, optional count). -/
def reSearchPlus : List Char → Option (ℕ × Option ℕ)
  | [] => none
  | c :: cs =>
    if c = '+' then
      match takeDigits cs with
      | [] => reSearchPlus cs
      | d :: ds =>
        let n := natOfDigits (d :: ds)
        match cs.drop (d :: ds).length with
        | ',' :: cs2 =>
          match takeDigits cs2 with
          | [] => some (n, none)
          | e :: es => some (n, some (natOfDigits (e :: es)))
        | _ => some (n, none)
    else reSearchPlus cs

/-- One step of the extractor loop over a diff line, threading the state
(`arquivo_atual`, accumulated mapping).  Mirrors the source: a line starting
with three plus signs updates the current file from `linha[6:].strip()`
unless that slice is empty or equal to the /dev/null path; otherwise a line
starting with two at signs, while a current file is tracked, adds the
new-range interval extracted by the regex (count defaulting to 1). -/
def linhaDiff (cur : Option (List Char)) (m : ChangeSet) (linha : List Char) :
    Option (List Char) × ChangeSet :=
  if ['+', '+', '+'].isPrefixOf linha then
    let caminho := pyStrip (linha.drop 6)
    if caminho = [] ∨ caminho = "/dev/null".toList then (cur, m)
    else (some caminho, m)
  else
    match cur with
    | some f =>
      if ['@', '@'].isPrefixOf linha then
        match reSearchPlus linha with
        | some (ini, q) => (cur, csAddRange m f ini (q.getD 1))
        | none => (cur, m)
      else (cur, m)
    | none => (cur, m)

/-- The extractor body: fold the per-line step over the lines of the diff
text, starting with no current file and an empty mapping, and return the
mapping (`obter_arquivos_e_linhas_modificadas` on the diff command output). -/
def processarDiff (texto : List Char) : ChangeSet :=
  ((splitLinhas texto).foldl (fun st l => linhaDiff st.1 st.2 l) (none, [])).2

/-! ### Coverage reports (`src/validacao/cobertura.py`)

A Cobertura XML report is modelled by the parts the embedded operations
read and rewrite: the root-level aggregate attributes and the nested
package / class / line elements.  `filtrar_cobertura_por_diff` only ever
removes `line` and `class` elements; `extrair_resumo_cobertura` only reads
the root attributes.  A missing report file is modelled by `Option`.
-/

/-- One `line` element: its `number` attribute and its `hits` attribute. -/
structure LineEntry where
  number : ℕ
  hits : ℕ
  deriving DecidableEq, Repr

/-- One `class` element: its `name`, its `filename` attribute and its
nested `lines/line` elements. -/
structure ClassE where
  name : List Char
  filename : List Char
  lines : List LineEntry
  deriving DecidableEq, Repr

/-- One `package` element with its `classes/class` children. -/
structure PackageE where
  name : List Char
  classes : List ClassE
  deriving DecidableEq, Repr

/-- The report root: aggregate attributes plus the package tree. -/
structure CovReport where
  lineRate : ℚ
  branchRate : ℚ
  linesCovered : ℤ
  linesValid : ℤ
  packages : List PackageE
  deriving DecidableEq, Repr

/-- `pathlib.Path(s).name`: the last slash-separated non-empty component of
an ordinary relative path (the shapes produced by diff output and report
filenames; exotic paths are out of scope for the claims). -/
def basename (l : List Char) : List Char :=
  ((l.splitOn '/').filter (· ≠ [])).getLastD []

/-- Build the normalised mapping of the filter: each ChangeSet key replaced
by its base name, a later duplicate overwriting an earlier one (Python dict
assignment order). -/
def normUpsert : ChangeSet → List Char → Finset ℕ → ChangeSet
  | [], f, s => [(f, s)]
  | (g, t) :: rest, f, s =>
    if g = f then (g, s) :: rest else (g, t) :: normUpsert rest f s

/-- `arquivos_mod_normalizados` of the filter. -/
def normalizar (cs : ChangeSet) : ChangeSet :=
  cs.foldl (fun m p => normUpsert m (basename p.1) p.2) []

/-- Membership lookup (`nome_arquivo in arquivos_mod_normalizados`). -/
def csLookup : ChangeSet → List Char → Option (Finset ℕ)
  | [], _ => none
  | (g, t) :: rest, f => if g = f then some t else csLookup rest f

/-- Per-class action of the filter: a class whose filename base name has no
entry in the normalised mapping is removed; a matched class keeps exactly
the lines whose number is in the entry. -/
def filtrarClasse (norm : ChangeSet) (c : ClassE) : Option ClassE :=
  match csLookup norm (basename c.filename) with
  | none => none
  | some ls => some { c with lines := c.lines.filter (fun l => decide (l.number ∈ ls)) }

/-- Per-package action of the filter: apply the class action to every class;
the package element itself is never removed. -/
def filtrarPacote (norm : ChangeSet) (p : PackageE) : PackageE :=
  { p with classes := p.classes.filterMap (filtrarClasse norm) }

/-- The tree transformation of the filter; packages and root attributes are
untouched, only nested class and line elements are removed. -/
def filtrarArvore (norm : ChangeSet) (r : CovReport) : CovReport :=
  { r with packages := r.packages.map (filtrarPacote norm) }

/-- `filtrar_cobertura_por_diff`: fails when the report file is missing or
the ChangeSet mapping is empty; otherwise produces the filtered report
(written to the output file in the source). -/
def filtrarCoberturaPorDiff (relatorio : Option CovReport) (cs : ChangeSet) :
    Option CovReport :=
  match relatorio with
  | none => none
  | some r => if cs = [] then none else some (filtrarArvore (normalizar cs) r)

/-- The summary dictionary returned by `extrair_resumo_cobertura`. -/
structure ResumoCobertura where
  line_coverage : ℚ
  branch_coverage : ℚ
  lines_covered : ℤ
  lines_valid : ℤ
  lines_uncovered : ℤ
  deriving DecidableEq, Repr

/-- `extrair_resumo_cobertura`: read the root attributes, convert the two
rates to percentages and derive the uncovered count. -/
def extrairResumoCobertura (relatorio : Option CovReport) : Option ResumoCobertura :=
  match relatorio with
  | none => none
  | some r =>
    some { line_coverage := r.lineRate * 100
           branch_coverage := r.branchRate * 100
           lines_covered := r.linesCovered
           lines_valid := r.linesValid
           lines_uncovered := r.linesValid - r.linesCovered }

/-! ### SDK sufficiency (`src/validacao/dotnet.py`, `verificar_sdks_necessarios`)

The embedding starts from the collected framework strings and the installed
SDK version strings; reading the frameworks out of the csproj files is file
input and is performed by the callers before this logic runs.
-/

/-- `re.search(net-digits, framework.lower())`: first occurrence of the
letters n, e, t followed by at least one digit; the captured digit run. -/
def findNetMajor : List Char → Option ℕ
  | 'n' :: 'e' :: 't' :: rest =>
    match takeDigits rest with
    | [] => findNetMajor ('e' :: 't' :: rest)
    | d :: ds => some (natOfDigits (d :: ds))
  | _ :: cs => findNetMajor cs
  | [] => none

/-- Major version of a required framework string (lower-cased first). -/
def extrairMajorFramework (fw : List Char) : Option ℕ :=
  findNetMajor (fw.map Char.toLower)

/-- Python `int(...)` on the text before the first dot of an SDK version
string: optional sign, at least one digit, nothing else (the shapes in
`dotnet --list-sdks` output); anything else raises and the entry is
skipped. -/
def pyIntOpt (l : List Char) : Option ℤ :=
  match l with
  | '-' :: ds => if ds ≠ [] ∧ ds.all pyDigit then some (-(natOfDigits ds : ℤ)) else none
  | ds => if ds ≠ [] ∧ ds.all pyDigit then some ((natOfDigits ds : ℤ)) else none

/-- Major version of one installed SDK string: `int(sdk.split(dot)[0])`,
skipped on a parse failure. -/
def sdkMajor (sdk : List Char) : Option ℤ :=
  pyIntOpt (sdk.takeWhile (· ≠ '.'))

/-- The set of installed SDK major versions (as the list of parsed majors;
the Python set only serves membership tests, which ignore duplicates). -/
def sdksMajors (sdks : List (List Char)) : List ℤ :=
  sdks.filterMap sdkMajor

/-- Satisfaction test for one required major version, exactly as in the
loop body: a legacy major (below 5) is satisfied when any installed major
is at least 5; otherwise the major must be directly installed. -/
def frameworkSatisfeito (majors : List ℤ) (m : ℕ) : Bool :=
  (decide (m < 5) && majors.any (fun i => decide (5 ≤ i))) || decide ((m : ℤ) ∈ majors)

/-- The filter predicate of the unsatisfied-framework collection: a
framework is recorded as missing when a major was extracted and the
satisfaction test fails; a framework with no extractable major is skipped. -/
def frameworkFaltando (majors : List ℤ) (fw : List Char) : Bool :=
  match extrairMajorFramework fw with
  | none => false
  | some m => !(frameworkSatisfeito majors m)

/-- `verificar_sdks_necessarios` on the collected framework strings and the
installed SDK strings: no detected framework yields success with an empty
list; otherwise the unsatisfied frameworks (those whose extracted major
fails the satisfaction test; strings with no extractable major are skipped)
are collected, and the overall flag is their emptiness. -/
def verificarSdksNecessarios (frameworks : List (List Char)) (sdks : List (List Char)) :
    Bool × List (List Char) :=
  if frameworks = [] then (true, [])
  else
    let faltando := frameworks.filter (frameworkFaltando (sdksMajors sdks))
    if faltando = [] then (true, []) else (false, faltando)

/-! ### The convergence loop (`src/agent/state.py`, `src/agent/nodes.py`, `src/agent/graph.py`)

`EstadoAgente` is modelled with the fields the loop reads or writes; the
environment-probe fields (branch names, project lists, tool flags) are set
only by the `validar_ambiente` node and read by no node of the compiled
graph, so they are elided, and that node is modelled through an oracle that
supplies the error and history entries its external probes produce — the
source shows it returns no update for any loop field.  `historico` entries
are recorded as their `acao` tags (their payloads are read by no code).
External collaborators (the test generator, the probes) are oracle
parameters.
-/

/-- The loop-relevant fields of `EstadoAgente`. -/
structure EstadoAgente where
  codigo_fonte : List Char
  testes_existentes : List Char
  testes_gerados : List (List Char)
  percentual_cobertura : ℚ
  meta_cobertura : ℚ
  iteracao : ℤ
  max_iteracoes : ℤ
  historico : List (List Char)
  erros : List (List Char)
  deve_continuar : Bool
  deriving Repr

/-- External collaborators of the graph: the generation call of
`no_gerar_testes` (per iteration number, a cleaned test text or a failure)
and the entries the environment probes of `no_validar_ambiente` append. -/
structure Oraculo where
  gen : ℤ → Option (List Char)
  ambienteErros : List (List Char)
  ambienteHistorico : List (List Char)

/-- `no_validar_ambiente`: external probes; appends their error and history
entries and writes only environment fields (elided) — never a loop field. -/
def noValidarAmbiente (o : Oraculo) (s : EstadoAgente) : EstadoAgente :=
  { s with erros := s.erros ++ o.ambienteErros,
           historico := s.historico ++ o.ambienteHistorico }

/-- `no_analisar_codigo`: with no source code, appends an error; otherwise
analyses the code (pure, result recorded in the history only). -/
def noAnalisarCodigo (s : EstadoAgente) : EstadoAgente :=
  if s.codigo_fonte = [] then
    { s with erros := s.erros ++ ["Código fonte não fornecido".toList] }
  else
    { s with historico := s.historico ++ ["analisar_codigo".toList] }

/-- `no_gerar_testes`: with no source code appends an error; otherwise one
generation call — on success the test is appended to `testes_gerados` and a
history entry added, on failure an error is appended. -/
def noGerarTestes (o : Oraculo) (s : EstadoAgente) : EstadoAgente :=
  if s.codigo_fonte = [] then
    { s with erros := s.erros ++ ["Código fonte não fornecido para geração de testes".toList] }
  else
    match o.gen s.iteracao with
    | some t =>
      { s with testes_gerados := s.testes_gerados ++ [t],
               historico := s.historico ++ ["gerar_testes".toList] }
    | none => { s with erros := s.erros ++ ["Falha ao gerar teste".toList] }

/-- `no_validar_testes`: with no generated test appends an error; otherwise
validates the last generated test (pure shape check, result recorded in the
history only). -/
def noValidarTestes (s : EstadoAgente) : EstadoAgente :=
  if s.testes_gerados = [] then
    { s with erros := s.erros ++ ["Nenhum teste gerado para validar".toList] }
  else
    { s with historico := s.historico ++ ["validar_testes".toList] }

/-- `no_verificar_cobertura` (the Decide stage): appends a history entry and
recomputes the continuation flag from coverage, target, iteration and
maximum — `cobertura < meta and iteracao < max_iteracoes`. -/
def noVerificarCobertura (s : EstadoAgente) : EstadoAgente :=
  { s with historico := s.historico ++ ["verificar_cobertura".toList],
           deve_continuar :=
             decide (s.percentual_cobertura < s.meta_cobertura) &&
               decide (s.iteracao < s.max_iteracoes) }

/-- `incrementar_iteracao` (`graph.py`): adds one to the iteration count. -/
def incrementarIteracao (s : EstadoAgente) : EstadoAgente :=
  { s with iteracao := s.iteracao + 1 }

/-- The two labels returned by the routing function. -/
inductive Rota where
  | continuar
  | fim
  deriving DecidableEq, Repr

/-- `deve_continuar` (`graph.py`): route on the state flag. -/
def deveContinuar (s : EstadoAgente) : Rota :=
  if s.deve_continuar then Rota.continuar else Rota.fim

/-- The nodes registered in `criar_grafo_agente`, plus the END vertex. -/
inductive No where
  | validarAmbiente
  | analisarCodigo
  | gerarTestes
  | validarTestes
  | verificarCobertura
  | incrementarIteracao
  | fim
  deriving DecidableEq, Repr

/-- One transition of the compiled graph: the edges of `criar_grafo_agente`.
Entry is `validar_ambiente`; after `verificar_cobertura` the conditional
edge routes through `deve_continuar` on the updated state; `END` is
absorbing. -/
def grafoStep (o : Oraculo) : No × EstadoAgente → No × EstadoAgente
  | (No.validarAmbiente, s) => (No.analisarCodigo, noValidarAmbiente o s)
  | (No.analisarCodigo, s) => (No.gerarTestes, noAnalisarCodigo s)
  | (No.gerarTestes, s) => (No.validarTestes, noGerarTestes o s)
  | (No.validarTestes, s) => (No.verificarCobertura, noValidarTestes s)
  | (No.verificarCobertura, s) =>
    let s' := noVerificarCobertura s
    match deveContinuar s' with
    | Rota.continuar => (No.incrementarIteracao, s')
    | Rota.fim => (No.fim, s')
  | (No.incrementarIteracao, s) => (No.gerarTestes, incrementarIteracao s)
  | (No.fim, s) => (No.fim, s)

/-- `n` transitions of the graph. -/
def grafoRun (o : Oraculo) : ℕ → No × EstadoAgente → No × EstadoAgente
  | 0, c => c
  | n + 1, c => grafoStep o (grafoRun o n c)

/-- `criar_estado_inicial` (`main.py`): iteration 0, coverage 0, flag off,
with the configured target and budget. -/
def estadoInicial (codigo : List Char) (meta : ℚ) (maxIt : ℤ) : EstadoAgente :=
  { codigo_fonte := codigo
    testes_existentes := []
    testes_gerados := []
    percentual_cobertura := 0
    meta_cobertura := meta
    iteracao := 0
    max_iteracoes := maxIt
    historico := []
    erros := []
    deve_continuar := false }

/-! ### Concrete values used by witnesses and counterexamples -/

/-- A well-formed merged coverage artifact: line-rate 3/4 consistent with
45 of 60 lines covered, one package with one class over `src/Calc.cs`. -/
def relatorioExemplo : CovReport :=
  { lineRate := 3 / 4
    branchRate := 1 / 2
    linesCovered := 45
    linesValid := 60
    packages :=
      [{ name := "Pacote".toList
         classes :=
           [{ name := "Calc".toList
              filename := "src/Calc.cs".toList
              lines := [⟨10, 1⟩, ⟨11, 0⟩, ⟨12, 2⟩] }] }] }

/-- A coverage artifact whose root `line-rate` attribute (1/2) is not the
ratio of its `lines-covered` (45) and `lines-valid` (60) attributes. -/
def relatorioInconsistente : CovReport :=
  { lineRate := 1 / 2
    branchRate := 0
    linesCovered := 45
    linesValid := 60
    packages := [] }

/-- A ChangeSet naming the example file with two changed lines. -/
def mudancasExemplo : ChangeSet :=
  [("src/Calc.cs".toList, {10, 12})]

/-- An oracle whose generation call always succeeds and whose environment
probes report no errors. -/
def oraculoOk : Oraculo :=
  { gen := fun _ => some "using Xunit".toList
    ambienteErros := []
    ambienteHistorico := ["validar_ambiente".toList] }

/-- The initial state of a run with the default target (80) and budget (5). -/
def estadoZero : EstadoAgente :=
  estadoInicial "class Calc".toList 80 5

/-- A second state agreeing with `estadoZero` on coverage, target, iteration
and maximum but differing elsewhere. -/
def estadoOutro : EstadoAgente :=
  { estadoZero with
    codigo_fonte := "class Outro".toList
    testes_gerados := ["using Xunit".toList]
    historico := ["gerar_testes".toList]
    erros := ["Falha ao gerar teste".toList]
    deve_continuar := true }

/-! ### C1 — the Decide-stage continuation predicate -/

/-- C1: the continuation decision recomputed by the Decide node holds iff
`current_coverage < target_coverage` and `current_iteration < max_iterations`;
the conditional edge routes to continue exactly then; and the flag is a pure
function of those four state fields alone — two states agreeing on them get
the same flag. -/
theorem C1_decide_predicate :
    ∀ s : EstadoAgente,
      ((noVerificarCobertura s).deve_continuar = true ↔
        (s.percentual_cobertura < s.meta_cobertura ∧ s.iteracao < s.max_iteracoes)) ∧
      (deveContinuar (noVerificarCobertura s) = Rota.continuar ↔
        (s.percentual_cobertura < s.meta_cobertura ∧ s.iteracao < s.max_iteracoes)) ∧
      (∀ t : EstadoAgente,
        s.percentual_cobertura = t.percentual_cobertura →
        s.meta_cobertura = t.meta_cobertura →
        s.iteracao = t.iteracao →
        s.max_iteracoes = t.max_iteracoes →
        (noVerificarCobertura s).deve_continuar = (noVerificarCobertura t).deve_continuar) := by
  intro s
  refine ⟨?_, ?_, ?_⟩
  · simp [noVerificarCobertura]
  · simp [noVerificarCobertura, deveContinuar]
  · intro t h1 h2 h3 h4
    simp [noVerificarCobertura, h1, h2, h3, h4]

/-- Witness for C1 at concrete states: `estadoZero` and `estadoOutro` agree
on the four fields and receive the same recomputed flag. -/
theorem C1_decide_predicate_witness :
    (noVerificarCobertura estadoZero).deve_continuar =
      (noVerificarCobertura estadoOutro).deve_continuar :=
  (C1_decide_predicate estadoZero).2.2 estadoOutro rfl rfl rfl rfl

/-! ### C5 — filtering with an empty ChangeSet -/

/-- C5 counterexample: on an existing report and an empty ChangeSet the
filter returns the failure outcome, not a success reporting zero retained
lines as the claim states. -/
theorem C5_counterexample :
    (filtrarCoberturaPorDiff (some relatorioExemplo) ([] : ChangeSet)).isSome = false := by
  rfl

/-- C5 amended: for every existing coverage report, the filter given an
empty ChangeSet performs no filtering and returns the failure outcome
(after a logged warning); it does not raise. -/
theorem C5_empty_changeset_fails :
    ∀ r : CovReport, filtrarCoberturaPorDiff (some r) ([] : ChangeSet) = none := by
  intro r
  rfl

/-! ### C8 — the Summarize arithmetic -/

/-- C8 counterexample: an artifact carrying lines-covered 45 and lines-valid
60 but line-rate 1/2 summarises to line_coverage 50, not 75 — the percentage
is read from the root rate attribute, not recomputed from the counts (the
uncovered count 15 does hold). -/
theorem C8_counterexample :
    extrairResumoCobertura (some relatorioInconsistente) =
      some { line_coverage := 50, branch_coverage := 0, lines_covered := 45,
             lines_valid := 60, lines_uncovered := 15 } ∧
    (50 : ℚ) ≠ 75 := by
  constructor
  · show some _ = some _
    norm_num [relatorioInconsistente]
  · norm_num

/-- C8 amended: Summarize returns the line-rate attribute times 100, the
branch-rate attribute times 100, the absolute covered and valid counts and
uncovered = valid − covered; when additionally the artifact's line-rate is
3/4 (consistent with 45 of 60), the summary is line_coverage 75 with
lines_uncovered 15. -/
theorem C8_summary_formula :
    ∀ r : CovReport,
      extrairResumoCobertura (some r) =
        some { line_coverage := r.lineRate * 100, branch_coverage := r.branchRate * 100,
               lines_covered := r.linesCovered, lines_valid := r.linesValid,
               lines_uncovered := r.linesValid - r.linesCovered } ∧
      (r.lineRate = 3 / 4 → r.linesCovered = 45 → r.linesValid = 60 →
        extrairResumoCobertura (some r) =
          some { line_coverage := 75, branch_coverage := r.branchRate * 100,
                 lines_covered := 45, lines_valid := 60, lines_uncovered := 15 }) := by
  intro r
  refine ⟨rfl, ?_⟩
  intro h1 h2 h3
  simp [extrairResumoCobertura, h1, h2, h3]
  norm_num

/-- Witness for C8 at the consistent example artifact. -/
theorem C8_summary_formula_witness :
    extrairResumoCobertura (some relatorioExemplo) =
      some { line_coverage := 75, branch_coverage := relatorioExemplo.branchRate * 100,
             lines_covered := 45, lines_valid := 60, lines_uncovered := 15 } :=
  (C8_summary_formula relatorioExemplo).2 rfl rfl rfl

/-! ### C10 — the filter never rewrites root aggregate attributes -/

/-- C10: a successful filter leaves every root-level aggregate attribute of
the report unchanged, so summarising the filtered report gives exactly the
summary of the unfiltered input. -/
theorem C10_root_attributes_frame :
    ∀ (cs : ChangeSet) (r r₁ : CovReport),
      filtrarCoberturaPorDiff (some r) cs = some r₁ →
      r₁.lineRate = r.lineRate ∧ r₁.branchRate = r.branchRate ∧
      r₁.linesCovered = r.linesCovered ∧ r₁.linesValid = r.linesValid ∧
      extrairResumoCobertura (some r₁) = extrairResumoCobertura (some r) := by
  intro cs r r₁ h
  simp only [filtrarCoberturaPorDiff] at h
  split at h
  · exact absurd h (by simp)
  · injection h with h
    subst h
    exact ⟨rfl, rfl, rfl, rfl, rfl⟩

/-- Witness for C10 at the example report and ChangeSet. -/
theorem C10_root_attributes_frame_witness :
    extrairResumoCobertura (some (filtrarArvore (normalizar mudancasExemplo) relatorioExemplo)) =
      extrairResumoCobertura (some relatorioExemplo) :=
  (C10_root_attributes_frame mudancasExemplo relatorioExemplo
    (filtrarArvore (normalizar mudancasExemplo) relatorioExemplo) rfl).2.2.2.2

/-! ### C6 — the SDK-sufficiency check -/

/-- The missing-framework predicate holds exactly when a major was
extracted and fails the satisfaction test. -/
theorem frameworkFaltando_iff (majors : List ℤ) (fw : List Char) :
    frameworkFaltando majors fw = true ↔
      ∃ m, extrairMajorFramework fw = some m ∧ frameworkSatisfeito majors m = false := by
  unfold frameworkFaltando
  cases h : extrairMajorFramework fw <;> simp [h]

/-- C6: the overall flag is the emptiness of the returned unsatisfied list;
a framework is returned as unsatisfied exactly when it is required, a major
version was extracted, and that major is neither directly installed nor
covered by the legacy rule (major below 5 with some installed major at
least 5); and the two concrete instances of the claim: required major 3
with installed majors 6 and 8 is satisfied, required major 8 with installed
major 6 is not. -/
theorem C6_sdk_sufficiency :
    (∀ (fws sdks : List (List Char)),
        (verificarSdksNecessarios fws sdks).1 = (verificarSdksNecessarios fws sdks).2.isEmpty) ∧
    (∀ (fws sdks : List (List Char)) (fw : List Char),
        fw ∈ (verificarSdksNecessarios fws sdks).2 ↔
          fw ∈ fws ∧ ∃ m, extrairMajorFramework fw = some m ∧
            frameworkSatisfeito (sdksMajors sdks) m = false) ∧
    (∀ (majors : List ℤ) (m : ℕ),
        frameworkSatisfeito majors m = true ↔
          ((m : ℤ) ∈ majors ∨ (m < 5 ∧ ∃ i ∈ majors, 5 ≤ i))) ∧
    verificarSdksNecessarios ["net3.0".toList] ["6.0.0".toList, "8.0.100".toList] = (true, []) ∧
    verificarSdksNecessarios ["net8.0".toList] ["6.0.402".toList] = (false, ["net8.0".toList]) := by
  refine ⟨?_, ?_, ?_, by decide, by decide⟩
  · intro fws sdks
    by_cases h0 : fws = []
    · simp [verificarSdksNecessarios, h0]
    · by_cases hfl : fws.filter (frameworkFaltando (sdksMajors sdks)) = []
      · simp [verificarSdksNecessarios, h0, hfl]
      · rcases hl : fws.filter (frameworkFaltando (sdksMajors sdks)) with _ | ⟨a, l⟩
        · exact absurd hl hfl
        · simp [verificarSdksNecessarios, h0, hfl, hl]
  · intro fws sdks fw
    by_cases h0 : fws = []
    · subst h0; simp [verificarSdksNecessarios]
    · by_cases hfl : fws.filter (frameworkFaltando (sdksMajors sdks)) = []
      · have hvs : verificarSdksNecessarios fws sdks = (true, []) := by
          simp [verificarSdksNecessarios, h0, hfl]
        rw [hvs]
        simp only [List.not_mem_nil, false_iff]
        intro hcontra
        obtain ⟨hin, m, hm, hsat⟩ := hcontra
        have hp : frameworkFaltando (sdksMajors sdks) fw = true :=
          (frameworkFaltando_iff _ _).mpr ⟨m, hm, hsat⟩
        have hmem : fw ∈ fws.filter (frameworkFaltando (sdksMajors sdks)) :=
          List.mem_filter.mpr ⟨hin, hp⟩
        rw [hfl] at hmem
        exact List.not_mem_nil fw hmem
      · have hvs : verificarSdksNecessarios fws sdks =
            (false, fws.filter (frameworkFaltando (sdksMajors sdks))) := by
          simp [verificarSdksNecessarios, h0, hfl]
        rw [hvs]
        rw [List.mem_filter]
        exact and_congr_right fun _ => frameworkFaltando_iff _ fw
  · intro majors m
    simp only [frameworkSatisfeito, Bool.or_eq_true, Bool.and_eq_true,
      decide_eq_true_iff, List.any_eq_true]
    constructor
    · rintro (⟨h5, i, hi, hge⟩ | hm)
      · exact Or.inr ⟨h5, i, hi, hge⟩
      · exact Or.inl hm
    · rintro (hm | ⟨h5, i, hi, hge⟩)
      · exact Or.inr hm
      · exact Or.inl ⟨h5, i, hi, hge⟩

/-! ### C7 — idempotence of the diff filter -/

/-- Filtering a list twice with the same predicate equals filtering once. -/
theorem filter_self_idem {α : Type} (p : α → Bool) (l : List α) :
    (l.filter p).filter p = l.filter p := by
  induction l with
  | nil => rfl
  | cons a l ih => cases hp : p a <;> simp [List.filter_cons, hp, ih]

/-- The per-class filter action written through `Option.map`. -/
theorem filtrarClasse_eq (norm : ChangeSet) (c : ClassE) :
    filtrarClasse norm c =
      (csLookup norm (basename c.filename)).map
        (fun ls => { c with lines := c.lines.filter (fun l => decide (l.number ∈ ls)) }) := by
  unfold filtrarClasse
  cases csLookup norm (basename c.filename) <;> rfl

/-- The per-class filter action is stable: its outputs are fixed points. -/
theorem filtrarClasse_stable (norm : ChangeSet) :
    ∀ c c', filtrarClasse norm c = some c' → filtrarClasse norm c' = some c' := by
  intro c c' h
  rw [filtrarClasse_eq] at h
  cases hl : csLookup norm (basename c.filename) with
  | none => rw [hl] at h; exact absurd h (by simp)
  | some ls =>
    rw [hl] at h
    simp only [Option.map_some'] at h
    injection h with h
    subst h
    rw [filtrarClasse_eq]
    dsimp only
    rw [hl]
    simp [filter_self_idem]

/-- A `filterMap` whose outputs are fixed points is idempotent. -/
theorem filterMap_stable {α : Type} (g : α → Option α)
    (hg : ∀ a b, g a = some b → g b = some b) (l : List α) :
    (l.filterMap g).filterMap g = l.filterMap g := by
  induction l with
  | nil => rfl
  | cons a l ih =>
    cases h : g a with
    | none => simp [List.filterMap_cons, h, ih]
    | some b => simp [List.filterMap_cons, h, hg a b h, ih]

/-- The per-package filter action is idempotent. -/
theorem filtrarPacote_idem (norm : ChangeSet) (p : PackageE) :
    filtrarPacote norm (filtrarPacote norm p) = filtrarPacote norm p := by
  unfold filtrarPacote
  simp [filterMap_stable _ (filtrarClasse_stable norm)]

/-- The whole filter tree transformation is idempotent. -/
theorem filtrarArvore_idem (norm : ChangeSet) (r : CovReport) :
    filtrarArvore norm (filtrarArvore norm r) = filtrarArvore norm r := by
  unfold filtrarArvore
  simp only [List.map_map]
  congr 1
  exact List.map_congr_left fun p _ => filtrarPacote_idem norm p

/-- C7: applying the filter to a report that is itself the output of
filtering by the same ChangeSet yields the identical report — the second
application removes no further line or class element. -/
theorem C7_filter_idempotent :
    ∀ (cs : ChangeSet) (r r₁ : CovReport),
      filtrarCoberturaPorDiff (some r) cs = some r₁ →
      filtrarCoberturaPorDiff (some r₁) cs = some r₁ := by
  intro cs r r₁ h
  simp only [filtrarCoberturaPorDiff] at h ⊢
  split at h
  · exact absurd h (by simp)
  · next hcs =>
    injection h with h
    subst h
    rw [if_neg hcs, filtrarArvore_idem]

/-- Witness for C7 at the example report and ChangeSet. -/
theorem C7_filter_idempotent_witness :
    filtrarCoberturaPorDiff
        (some (filtrarArvore (normalizar mudancasExemplo) relatorioExemplo)) mudancasExemplo =
      some (filtrarArvore (normalizar mudancasExemplo) relatorioExemplo) :=
  C7_filter_idempotent mudancasExemplo relatorioExemplo
    (filtrarArvore (normalizar mudancasExemplo) relatorioExemplo) rfl

/-! ### C3 — hunk headers add exactly the new-range interval -/

/-- The regex search skips a head character that is not a plus sign. -/
theorem reSearchPlus_cons_ne (c : Char) (cs : List Char) (h : ¬c = '+') :
    reSearchPlus (c :: cs) = reSearchPlus cs := by
  simp only [reSearchPlus]
  exact if_neg h

/-- The regex search skips any plus-free prefix. -/
theorem reSearchPlus_append (xs ys : List Char) (h : '+' ∉ xs) :
    reSearchPlus (xs ++ ys) = reSearchPlus ys := by
  induction xs with
  | nil => rfl
  | cons c cs ih =>
    rw [List.cons_append, reSearchPlus_cons_ne]
    · exact ih fun hm => h (List.mem_cons_of_mem c hm)
    · intro hc
      exact h (hc ▸ List.mem_cons_self c cs)

/-- Lookup after adding lines under the same file. -/
theorem csGet_csUnion_self (m : ChangeSet) (f : List Char) (s : Finset ℕ) :
    csGet (csUnion m f s) f = csGet m f ∪ s := by
  induction m with
  | nil => simp [csUnion, csGet]
  | cons p rest ih =>
    obtain ⟨g, t⟩ := p
    by_cases hg : g = f
    · subst hg; simp [csUnion, csGet]
    · simp [csUnion, csGet, hg, ih]

/-- Lookup of a different file after adding lines. -/
theorem csGet_csUnion_other (m : ChangeSet) (f g : List Char) (s : Finset ℕ)
    (hg : g ≠ f) : csGet (csUnion m f s) g = csGet m g := by
  induction m with
  | nil =>
    simp only [csUnion, csGet]
    rw [if_neg fun h => hg h.symm]
  | cons p rest ih =>
    obtain ⟨k, t⟩ := p
    by_cases hk : k = f
    · subst hk
      have hkg : ¬k = g := fun h => hg h.symm
      simp [csUnion, csGet, hkg]
    · simp only [csUnion, if_neg hk]
      by_cases hkg : k = g <;> simp [csGet, hkg, ih]

/-- Effect of the extractor step on a tracked hunk line whose regex search
finds a start and an explicit count. -/
theorem linhaDiff_hunk (f : List Char) (m : ChangeSet) (linha : List Char)
    (h3 : ['+', '+', '+'].isPrefixOf linha = false)
    (h2 : ['@', '@'].isPrefixOf linha = true)
    (ini q : ℕ) (hq : q ≠ 0)
    (hre : reSearchPlus linha = some (ini, some q)) :
    linhaDiff (some f) m linha = (some f, csUnion m f (Finset.Ico ini (ini + q))) := by
  simp [linhaDiff, h3, h2, hre, csAddRange, hq]

/-- Effect of the extractor step on a tracked hunk line whose regex search
finds a start with the count omitted: the count defaults to one. -/
theorem linhaDiff_hunk_sem_contagem (f : List Char) (m : ChangeSet) (linha : List Char)
    (h3 : ['+', '+', '+'].isPrefixOf linha = false)
    (h2 : ['@', '@'].isPrefixOf linha = true)
    (ini : ℕ)
    (hre : reSearchPlus linha = some (ini, none)) :
    linhaDiff (some f) m linha = (some f, csUnion m f (Finset.Ico ini (ini + 1))) := by
  simp [linhaDiff, h3, h2, hre, csAddRange]

/-- C3: with a current file tracked, a hunk header of the form
`@@ -x,y +12,3 @@` (old-range text `x,y` containing no plus sign) adds
exactly the lines 12, 13, 14 to that file's set, leaves every other file's
set unchanged, and keeps the tracked file; a header `@@ -x,y +7 @@` with
the count omitted adds exactly line 7. -/
theorem C3_hunk_ranges :
    ∀ (f : List Char) (m : ChangeSet) (pre : List Char), '+' ∉ pre →
      (linhaDiff (some f) m ("@@ -".toList ++ pre ++ " +12,3 @@".toList)).1 = some f ∧
      csGet (linhaDiff (some f) m ("@@ -".toList ++ pre ++ " +12,3 @@".toList)).2 f =
        csGet m f ∪ {12, 13, 14} ∧
      (∀ g, g ≠ f →
        csGet (linhaDiff (some f) m ("@@ -".toList ++ pre ++ " +12,3 @@".toList)).2 g =
          csGet m g) ∧
      (linhaDiff (some f) m ("@@ -".toList ++ pre ++ " +7 @@".toList)).1 = some f ∧
      csGet (linhaDiff (some f) m ("@@ -".toList ++ pre ++ " +7 @@".toList)).2 f =
        csGet m f ∪ {7} ∧
      (∀ g, g ≠ f →
        csGet (linhaDiff (some f) m ("@@ -".toList ++ pre ++ " +7 @@".toList)).2 g =
          csGet m g) := by
  intro f m pre hpre
  have hnm : '+' ∉ "@@ -".toList ++ pre ++ [' '] := by
    intro hmem
    rw [List.mem_append, List.mem_append] at hmem
    rcases hmem with (h | h) | h
    · revert h; decide
    · exact hpre h
    · revert h; decide
  have h3a : ['+', '+', '+'].isPrefixOf ("@@ -".toList ++ pre ++ " +12,3 @@".toList) = false := rfl
  have h2a : ['@', '@'].isPrefixOf ("@@ -".toList ++ pre ++ " +12,3 @@".toList) = true := rfl
  have h3b : ['+', '+', '+'].isPrefixOf ("@@ -".toList ++ pre ++ " +7 @@".toList) = false := rfl
  have h2b : ['@', '@'].isPrefixOf ("@@ -".toList ++ pre ++ " +7 @@".toList) = true := rfl
  have hsplit1 : "@@ -".toList ++ pre ++ " +12,3 @@".toList =
      ("@@ -".toList ++ pre ++ [' ']) ++ "+12,3 @@".toList := by
    have he : (" +12,3 @@".toList : List Char) = ' ' :: "+12,3 @@".toList := rfl
    rw [he]
    simp [List.append_assoc]
  have hsplit2 : "@@ -".toList ++ pre ++ " +7 @@".toList =
      ("@@ -".toList ++ pre ++ [' ']) ++ "+7 @@".toList := by
    have he : (" +7 @@".toList : List Char) = ' ' :: "+7 @@".toList := rfl
    rw [he]
    simp [List.append_assoc]
  have hre1 : reSearchPlus ("@@ -".toList ++ pre ++ " +12,3 @@".toList) = some (12, some 3) := by
    rw [hsplit1, reSearchPlus_append _ _ hnm]
    rfl
  have hre2 : reSearchPlus ("@@ -".toList ++ pre ++ " +7 @@".toList) = some (7, none) := by
    rw [hsplit2, reSearchPlus_append _ _ hnm]
    rfl
  have hl1 := linhaDiff_hunk f m _ h3a h2a 12 3 (by decide) hre1
  have hl2 := linhaDiff_hunk_sem_contagem f m _ h3b h2b 7 hre2
  rw [hl1, hl2]
  have hico1 : Finset.Ico 12 (12 + 3) = ({12, 13, 14} : Finset ℕ) := by decide
  have hico2 : Finset.Ico 7 (7 + 1) = ({7} : Finset ℕ) := by decide
  refine ⟨rfl, ?_, ?_, rfl, ?_, ?_⟩
  · rw [csGet_csUnion_self, hico1]
  · intro g hg; exact csGet_csUnion_other m f g _ hg
  · rw [csGet_csUnion_self, hico2]
  · intro g hg; exact csGet_csUnion_other m f g _ hg

/-- Witness for C3 at a concrete tracked file, mapping and old-range text. -/
theorem C3_hunk_ranges_witness :
    '+' ∉ "3,2".toList ∧
    csGet (linhaDiff (some "Foo.cs".toList) []
        ("@@ -".toList ++ "3,2".toList ++ " +12,3 @@".toList)).2 "Foo.cs".toList =
      csGet [] "Foo.cs".toList ∪ {12, 13, 14} :=
  ⟨by decide, (C3_hunk_ranges "Foo.cs".toList [] "3,2".toList (by decide)).2.1⟩

/-! ### C4 — the /dev/null marker (deleted file) -/

/-- C4 failing input: on the diff text consisting of the marker line
`+++ /dev/null` followed by the hunk header `@@ -1,2 +5,2 @@`, the
extractor slices the marker with `linha[6:]`, obtaining `ev/null`, which
is not equal to the /dev/null path, so it starts tracking the bogus file
`ev/null` and records lines 5 and 6 under it — the guard meant to skip
deleted files can never fire on real diff output, and the claim that such
a marker contributes no entries is violated by the code. -/
theorem C4_devnull_failing_input :
    processarDiff ("+++ /dev/null\n@@ -1,2 +5,2 @@".toList) =
      [("ev/null".toList, ({5, 6} : Finset ℕ))] ∧
    processarDiff ("+++ /dev/null\n@@ -1,2 +5,2 @@".toList) ≠ ([] : ChangeSet) := by
  constructor
  · decide
  · decide

/-! ### C2 — the stages actually visited per iteration -/

/-- C2 amended: in the compiled graph, the Generate node is followed
directly by Validate, Validate directly by the Decide node, and the
increment node loops straight back to Generate; no transition of the graph
writes `percentual_cobertura` — the coverage-execution node is not part of
the graph — so the Decide stage consumes the coverage value already carried
in the state. -/
theorem C2_loop_stage_order :
    ∀ (o : Oraculo) (s : EstadoAgente) (c : No × EstadoAgente),
      (grafoStep o (No.gerarTestes, s)).1 = No.validarTestes ∧
      (grafoStep o (No.validarTestes, s)).1 = No.verificarCobertura ∧
      (grafoStep o (No.incrementarIteracao, s)).1 = No.gerarTestes ∧
      (grafoStep o c).2.percentual_cobertura = c.2.percentual_cobertura := by
  intro o s c
  refine ⟨rfl, rfl, rfl, ?_⟩
  obtain ⟨n, t⟩ := c
  cases n
  case validarAmbiente => rfl
  case analisarCodigo =>
    simp only [grafoStep]
    unfold noAnalisarCodigo
    split <;> rfl
  case gerarTestes =>
    simp only [grafoStep]
    unfold noGerarTestes
    split
    · rfl
    · split <;> rfl
  case validarTestes =>
    simp only [grafoStep]
    unfold noValidarTestes
    split <;> rfl
  case verificarCobertura =>
    simp only [grafoStep]
    cases hr : deveContinuar (noVerificarCobertura t) <;> simp [noVerificarCobertura]
  case incrementarIteracao => rfl
  case fim => rfl

/-- C2 counterexample: in the concrete run from the initial state, the
Validate node (reached at step 3) is followed immediately by the Decide
node (step 4) — no Measure or Filter/Summarize stage lies between them —
and the coverage the Decide stage consumes is still the initial 0, whereas
summarising that iteration's measured artifact (line-rate 3/4) would give
75: the consumed percentage is not the one produced by the iteration's
coverage measurement and filtering. -/
theorem C2_counterexample :
    (grafoRun oraculoOk 3 (No.validarAmbiente, estadoZero)).1 = No.validarTestes ∧
    (grafoRun oraculoOk 4 (No.validarAmbiente, estadoZero)).1 = No.verificarCobertura ∧
    (grafoRun oraculoOk 4 (No.validarAmbiente, estadoZero)).2.percentual_cobertura = 0 ∧
    extrairResumoCobertura (some relatorioExemplo) =
      some { line_coverage := 75, branch_coverage := 50, lines_covered := 45,
             lines_valid := 60, lines_uncovered := 15 } ∧
    (0 : ℚ) ≠ 75 := by
  refine ⟨by decide, by decide, by decide, ?_, by norm_num⟩
  show some _ = some _
  norm_num [relatorioExemplo]

/-! ### C9 — the iteration count is monotone and bounded -/

/-- Invariant of the compiled graph: the iteration count is within the
budget, and the increment node is only ever entered after the continuation
predicate established strict room below the budget. -/
def loopInv (c : No × EstadoAgente) : Prop :=
  c.2.iteracao ≤ c.2.max_iteracoes ∧
    (c.1 = No.incrementarIteracao → c.2.iteracao < c.2.max_iteracoes)

/-- Every transition keeps the budget unchanged and moves the iteration
count by zero or one, never down. -/
theorem grafoStep_iteracao (o : Oraculo) (c : No × EstadoAgente) :
    (grafoStep o c).2.max_iteracoes = c.2.max_iteracoes ∧
    c.2.iteracao ≤ (grafoStep o c).2.iteracao ∧
    (grafoStep o c).2.iteracao ≤ c.2.iteracao + 1 := by
  obtain ⟨n, t⟩ := c
  cases n
  case validarAmbiente => simp [grafoStep, noValidarAmbiente]
  case analisarCodigo =>
    simp only [grafoStep]
    unfold noAnalisarCodigo
    split <;> simp
  case gerarTestes =>
    simp only [grafoStep]
    unfold noGerarTestes
    split
    · simp
    · split <;> simp
  case validarTestes =>
    simp only [grafoStep]
    unfold noValidarTestes
    split <;> simp
  case verificarCobertura =>
    simp only [grafoStep]
    cases hr : deveContinuar (noVerificarCobertura t) <;>
      simp [noVerificarCobertura]
  case incrementarIteracao => simp [grafoStep, incrementarIteracao]
  case fim => simp [grafoStep]

/-- Every transition preserves the loop invariant: the only entry into the
increment node is the continue route, whose predicate required strict room,
and the increment itself then stays within the budget. -/
theorem grafoStep_loopInv (o : Oraculo) (c : No × EstadoAgente) (h : loopInv c) :
    loopInv (grafoStep o c) := by
  obtain ⟨n, t⟩ := c
  obtain ⟨hle, himp⟩ := h
  cases n
  case validarAmbiente =>
    exact ⟨by simpa [grafoStep, noValidarAmbiente] using hle, by simp [grafoStep]⟩
  case analisarCodigo =>
    refine ⟨?_, ?_⟩ <;> simp only [grafoStep] <;> unfold noAnalisarCodigo <;>
      split <;> simp_all [loopInv]
  case gerarTestes =>
    refine ⟨?_, ?_⟩ <;> simp only [grafoStep] <;> unfold noGerarTestes <;>
      split
    · simpa using hle
    · split <;> simpa using hle
    · simp
    · split <;> simp
  case validarTestes =>
    refine ⟨?_, ?_⟩ <;> simp only [grafoStep] <;> unfold noValidarTestes <;>
      split <;> simp_all [loopInv]
  case verificarCobertura =>
    simp only [grafoStep]
    cases hr : deveContinuar (noVerificarCobertura t)
    case continuar =>
      refine ⟨by simpa [noVerificarCobertura] using hle, ?_⟩
      intro _
      have hb : (noVerificarCobertura t).deve_continuar = true := by
        by_contra hff
        rw [Bool.not_eq_true] at hff
        simp [deveContinuar, hff] at hr
      simp only [noVerificarCobertura, Bool.and_eq_true, decide_eq_true_eq] at hb
      simpa [noVerificarCobertura] using hb.2
    case fim =>
      exact ⟨by simpa [noVerificarCobertura] using hle, by simp⟩
  case incrementarIteracao =>
    have hlt : t.iteracao < t.max_iteracoes := himp rfl
    refine ⟨?_, by simp [grafoStep]⟩
    simp only [grafoStep, incrementarIteracao]
    omega
  case fim => exact ⟨hle, by simp [grafoStep]⟩

/-- The loop invariant holds along every run. -/
theorem grafoRun_loopInv (o : Oraculo) (c : No × EstadoAgente) (h : loopInv c) :
    ∀ n, loopInv (grafoRun o n c)
  | 0 => h
  | n + 1 => grafoStep_loopInv o _ (grafoRun_loopInv o c h n)

/-- The budget is constant along every run. -/
theorem grafoRun_max (o : Oraculo) (c : No × EstadoAgente) :
    ∀ n, (grafoRun o n c).2.max_iteracoes = c.2.max_iteracoes
  | 0 => rfl
  | n + 1 => ((grafoStep_iteracao o (grafoRun o n c)).1).trans (grafoRun_max o c n)

/-- C9: along any run of the compiled graph from a state whose iteration
count is within the budget, the iteration count never decreases, moves by
at most one per transition, and never exceeds `max_iteracoes` — the
increment node is reached only after the continuation predicate, which
requires `iteracao < max_iteracoes`, held. -/
theorem C9_iteration_bounds :
    ∀ (o : Oraculo) (s : EstadoAgente), s.iteracao ≤ s.max_iteracoes → ∀ n : ℕ,
      (grafoRun o n (No.validarAmbiente, s)).2.iteracao ≤
        (grafoRun o (n + 1) (No.validarAmbiente, s)).2.iteracao ∧
      (grafoRun o (n + 1) (No.validarAmbiente, s)).2.iteracao ≤
        (grafoRun o n (No.validarAmbiente, s)).2.iteracao + 1 ∧
      (grafoRun o n (No.validarAmbiente, s)).2.iteracao ≤ s.max_iteracoes := by
  intro o s h n
  have h0 : loopInv (No.validarAmbiente, s) := ⟨h, by intro hx; cases hx⟩
  have hinv := grafoRun_loopInv o _ h0 n
  have hmax := grafoRun_max o (No.validarAmbiente, s) n
  have hstep := grafoStep_iteracao o (grafoRun o n (No.validarAmbiente, s))
  exact ⟨hstep.2.1, hstep.2.2, hinv.1.trans (le_of_eq hmax)⟩

/-- Witness for C9 at the concrete initial state and oracle, six steps in. -/
theorem C9_iteration_bounds_witness :
    estadoZero.iteracao ≤ estadoZero.max_iteracoes ∧
    (grafoRun oraculoOk 6 (No.validarAmbiente, estadoZero)).2.iteracao ≤
      estadoZero.max_iteracoes :=
  ⟨by decide, (C9_iteration_bounds oraculoOk estadoZero (by decide) 6).2.2⟩
